import Mathlib

/-!
Verification development for the fault-injection module
src/sadness-generator/src/sadness.c.

The C file defines five fault generators:

  uint32_t definitely_not_zero()      -- returns 0
  void sig_fpe()                      -- 1 / definitely_not_zero(), printf result
  void sig_segv()                     -- dereference NULL as const uint32_t*
  void sig_ill()                      -- asm("ud2")      (TODO: x86/_64 only)
  void sig_bus(const char* path, size_t path_len)
                                      -- calloc, strncpy, open, mmap 128 bytes,
                                      -- read bus_map[1], free
  void sig_trap()                     -- asm("int3")

The shallow embedding below models bytes as Nat, C strings as lists of
bytes (NUL excluded), fallible operations as Except over a Signal type,
and sig_bus as a straight-line computation that also records the ordered
trace of the system-level operations it performs, plus the resource state
reached on the path where the faulting access does not crash.
-/

/-- The POSIX signals the five generators can raise. -/
inductive Signal
  | SIGFPE
  | SIGSEGV
  | SIGILL
  | SIGBUS
  | SIGTRAP
  deriving DecidableEq, Repr

/-! ## definitely_not_zero and sig_fpe (sadness.c lines 8-15) -/

/-- C lines 8-10: `uint32_t definitely_not_zero() { return 0; }`.
The function reads no state and unconditionally returns 0. -/
def definitely_not_zero : Nat := 0

/-- The results of a sequence of calls to definitely_not_zero: the function
has no state, so each call in the sequence evaluates the same body. -/
def callResults (calls : List Unit) : List Nat :=
  calls.map (fun _ => definitely_not_zero)

/-- Hardware integer division as C executes it: division by zero traps with
SIGFPE instead of producing a value. -/
def trapDiv (a b : Nat) : Except Signal Nat :=
  if b = 0 then Except.error Signal.SIGFPE else Except.ok (a / b)

/-- C lines 12-15: `uint32_t ohno = 1 / definitely_not_zero();
printf("%u\n", ohno);`.  The result is either the terminating signal or the
list of values printed. -/
def sig_fpe : Except Signal (List Nat) :=
  match trapDiv 1 definitely_not_zero with
  | Except.error s => Except.error s
  | Except.ok ohno => Except.ok [ohno]

/-! ## sig_segv (sadness.c lines 17-20) -/

/-- A uint32 read through a raw pointer: memory is a partial map from
addresses to 32-bit values; reading an unmapped address faults with
SIGSEGV. -/
def derefU32 (mem : Nat → Option Nat) (addr : Nat) : Except Signal Nat :=
  match mem addr with
  | none => Except.error Signal.SIGSEGV
  | some v => Except.ok v

/-- C lines 17-20: `const uint32_t* oops = NULL; printf("%u\n", *oops);`.
The pointer's address is 0; the dereferenced value is passed to printf,
so a successful read would produce output. -/
def sig_segv (mem : Nat → Option Nat) : Except Signal (List Nat) :=
  match derefU32 mem 0 with
  | Except.error s => Except.error s
  | Except.ok v => Except.ok [v]

/-! ## sig_ill and sig_trap (sadness.c lines 22-25 and 64-66) -/

/-- Target instruction-set architectures a build of sadness.c could aim at. -/
inductive Arch
  | x86
  | x86_64
  | aarch64
  | riscv64
  deriving DecidableEq, Repr

/-- The instruction mnemonics appearing in the C file's asm statements. -/
inductive Insn
  | ud2
  | int3
  deriving DecidableEq, Repr

/-- What a build of one of the asm-based generators produces for a target:
either it emits a concrete instruction, or it raises an explicit
unsupported-platform error (e.g. a preprocessor #error). -/
inductive AsmResult
  | emit (i : Insn)
  | unsupportedPlatform
  deriving DecidableEq, Repr

/-- C lines 22-25: `asm("ud2")` with the comment "TODO: x86/_64 only".
There is no preprocessor conditional: for every target architecture the
source specifies the same x86 instruction. -/
def sig_ill (_arch : Arch) : AsmResult := AsmResult.emit Insn.ud2

/-- C lines 64-66: `asm("int3")`.  As with sig_ill, no dispatch: the same
x86 instruction is specified for every target. -/
def sig_trap (_arch : Arch) : AsmResult := AsmResult.emit Insn.int3

/-- The architectures for which the source knows a guaranteed-invalid
instruction sequence: per the file's own "TODO: x86/_64 only" comment,
ud2 is only guaranteed on x86 and x86_64. -/
def archKnownInvalid : Arch → Bool
  | Arch.x86 => true
  | Arch.x86_64 => true
  | Arch.aarch64 => false
  | Arch.riscv64 => false

/-- The architectures for which the source knows a breakpoint-trap
sequence: int3 is an x86/x86_64 instruction. -/
def archKnownTrap : Arch → Bool
  | Arch.x86 => true
  | Arch.x86_64 => true
  | Arch.aarch64 => false
  | Arch.riscv64 => false

/-! ## sig_bus (sadness.c lines 27-62, the live branch at lines 52-61)

    char* fpath = calloc(path_len + 1, 1);
    strncpy(fpath, path, path_len);
    int bus_fd = open(fpath, O_RDWR | O_CREAT, 0666);
    uint8_t* bus_map = mmap(0, 128, PROT_READ | PROT_WRITE, MAP_SHARED, bus_fd, 0);
    printf("%u", bus_map[1]);
    free(fpath);

The caller-supplied path is modelled as the byte at each source offset
(a function Nat → Nat); buffers are lists of bytes. -/

/-- `calloc(n, 1)`: a fresh zero-initialised buffer of n bytes. -/
def calloc (n : Nat) : List Nat := List.replicate n 0

/-- The n bytes `strncpy` writes: it copies source bytes up to but not
including the first NUL, then pads the remainder of the n bytes with NUL.
Recursion shifts the source to walk it from offset 0. -/
def strncpyLoop (src : Nat → Nat) : Nat → List Nat
  | 0 => []
  | m + 1 =>
    if src 0 = 0 then List.replicate (m + 1) 0
    else src 0 :: strncpyLoop (fun i => src (i + 1)) m

/-- `strncpy(dest, src, n)`: the first n bytes of dest are overwritten by
the copy loop; bytes of dest past n are untouched. -/
def strncpy (dest : List Nat) (src : Nat → Nat) (n : Nat) : List Nat :=
  strncpyLoop src n ++ dest.drop n

/-- C lines 52-53: the owned path buffer,
`calloc(path_len + 1, 1)` then `strncpy(fpath, path, path_len)`. -/
def busPathBuf (path : Nat → Nat) (path_len : Nat) : List Nat :=
  strncpy (calloc (path_len + 1)) path path_len

/-- Reading a buffer as a C string: the bytes before the first NUL. -/
def cString (buf : List Nat) : List Nat :=
  buf.takeWhile (fun b => b != 0)

/-- The first n bytes of the caller-supplied path, as a list. -/
def firstBytes (src : Nat → Nat) : Nat → List Nat
  | 0 => []
  | m + 1 => src 0 :: firstBytes (fun i => src (i + 1)) m

/-- The operating-system facts a single sig_bus call runs against:
whether open succeeds and with which descriptor, the size and contents of
the opened file, and where a successful mmap places the mapping. -/
structure Env where
  openFd : Option Nat
  fileSize : Nat
  mapAddr : Nat
  fileByte : Nat → Nat

/-- `open(fpath, O_RDWR | O_CREAT, 0666)`: the descriptor on success,
-1 on failure.  sadness.c never checks this result. -/
def openSys (env : Env) (_pathStr : List Nat) : Int :=
  match env.openFd with
  | some fd => (fd : Int)
  | none => -1

/-- `mmap(0, 128, PROT_READ | PROT_WRITE, MAP_SHARED, bus_fd, 0)`:
MAP_FAILED (-1) when the descriptor is invalid, otherwise the address of
the new mapping.  sadness.c never checks this result either. -/
def mmapSys (env : Env) (fd : Int) : Int :=
  if fd < 0 then -1 else (env.mapAddr : Int)

/-- x86-64 page granularity for file-backed mappings. -/
def pageCeil (n : Nat) : Nat := (n + 4095) / 4096 * 4096

/-- The one-byte read `bus_map[1]`.  Through MAP_FAILED the effective
address is -1 + 1 = 0, an unmapped address: SIGSEGV.  Through a valid
shared file mapping, touching a page past the end of the backing file
raises SIGBUS; within the backed region the read returns the file byte
(0 past EOF inside the last backed page). -/
def busReadByte (env : Env) (bus_map : Int) (off : Nat) : Except Signal Nat :=
  if bus_map = -1 then Except.error Signal.SIGSEGV
  else if pageCeil env.fileSize ≤ off then Except.error Signal.SIGBUS
  else Except.ok (if off < env.fileSize then env.fileByte off else 0)

/-- The descriptor sig_bus obtains at line 54. -/
def busFd (env : Env) (path : Nat → Nat) (path_len : Nat) : Int :=
  openSys env (cString (busPathBuf path path_len))

/-- The mapping pointer sig_bus obtains at line 55. -/
def busMap (env : Env) (path : Nat → Nat) (path_len : Nat) : Int :=
  mmapSys env (busFd env path path_len)

/-- The system-level operations a sig_bus call can perform, in the order
performed.  truncateEv (ftruncate) and reportSetupFailureEv are vocabulary
needed to state spec claims; sadness.c contains no call that would emit
them. -/
inductive BusEvent
  | callocEv (count : Nat) (size : Nat)
  | strncpyEv (n : Nat)
  | openEv (pathStr : List Nat) (rdwr : Bool) (creat : Bool) (mode : Nat)
  | truncateEv (size : Nat)
  | mmapEv (result : Int) (len : Nat) (protRead : Bool) (protWrite : Bool)
      (shared : Bool) (fd : Int) (off : Nat)
  | accessEv (addr : Int) (width : Nat) (isWrite : Bool)
  | printEv (v : Nat)
  | freeEv
  | reportSetupFailureEv
  deriving DecidableEq, Repr

/-- Whether the fault occurred (crashed) or the call ran to its end. -/
inductive Outcome
  | crashed (s : Signal)
  | completed
  deriving DecidableEq, Repr

/-- The trace of a run of sig_bus together with its outcome and the state
of the three acquired resources when the call ends (meaningful only on the
completed path; on a crash the process is gone). -/
structure BusRun where
  events : List BusEvent
  outcome : Outcome
  bufFreed : Bool
  fdClosed : Bool
  mapReleased : Bool
  deriving DecidableEq, Repr

/-- The operations sig_bus performs unconditionally, in source order
(lines 52-57): calloc, strncpy, open, mmap, and the faulting one-byte
read at offset 1 of the mapping. -/
def busPre (env : Env) (path : Nat → Nat) (path_len : Nat) : List BusEvent :=
  [ BusEvent.callocEv (path_len + 1) 1
  , BusEvent.strncpyEv path_len
  , BusEvent.openEv (cString (busPathBuf path path_len)) true true 438
  , BusEvent.mmapEv (busMap env path path_len) 128 true true true
      (busFd env path path_len) 0
  , BusEvent.accessEv (busMap env path path_len + 1) 1 false ]

/-- The operations after the read: reached only when the read did not
crash, in which case the byte is printed and the path buffer freed
(lines 57-60).  Note: no close(bus_fd) and no munmap appear in the C. -/
def busTail (env : Env) (bus_map : Int) : List BusEvent :=
  match busReadByte env bus_map 1 with
  | Except.error _ => []
  | Except.ok v => [BusEvent.printEv v, BusEvent.freeEv]

/-- C lines 52-61, the live #else branch of sig_bus. -/
def sig_bus (env : Env) (path : Nat → Nat) (path_len : Nat) : BusRun :=
  { events := busPre env path path_len ++ busTail env (busMap env path path_len)
  , outcome :=
      match busReadByte env (busMap env path path_len) 1 with
      | Except.error s => Outcome.crashed s
      | Except.ok _ => Outcome.completed
  , bufFreed :=
      match busReadByte env (busMap env path path_len) 1 with
      | Except.error _ => false
      | Except.ok _ => true
  , fdClosed := false
  , mapReleased := false }

/-- Event classifiers used to state the spec's claims about the trace. -/
def BusEvent.isOpenEv : BusEvent → Bool
  | BusEvent.openEv _ _ _ _ => true
  | _ => false

def BusEvent.isMmapEv : BusEvent → Bool
  | BusEvent.mmapEv _ _ _ _ _ _ _ => true
  | _ => false

def BusEvent.isAccessEv : BusEvent → Bool
  | BusEvent.accessEv _ _ _ => true
  | _ => false

def BusEvent.isTruncateEv : BusEvent → Bool
  | BusEvent.truncateEv _ => true
  | _ => false

/-- Claim C1's trace pattern as stated: an open, then a truncate/extend to
128 bytes, then an mmap, then the faulting access, in that order. -/
def opensTruncates128MapsAccesses (evs : List BusEvent) : Prop :=
  ∃ i j k l : Nat, i < j ∧ j < k ∧ k < l ∧
    (∃ e : BusEvent, evs[i]? = some e ∧ e.isOpenEv = true) ∧
    evs[j]? = some (BusEvent.truncateEv 128) ∧
    (∃ e : BusEvent, evs[k]? = some e ∧ e.isMmapEv = true) ∧
    (∃ e : BusEvent, evs[l]? = some e ∧ e.isAccessEv = true)

/-- Claim C2's behaviour as stated: a distinct setup-failure report, and
the bus-fault access never attempted. -/
def reportsSetupFailureWithoutAccess (r : BusRun) : Prop :=
  BusEvent.reportSetupFailureEv ∈ r.events ∧
    ∀ e ∈ r.events, e.isAccessEv = false

/-- Claim C7's behaviour as stated: on the non-crashing path all three
resources (buffer, descriptor, mapping) are released. -/
def releasesAllResources (r : BusRun) : Prop :=
  r.outcome = Outcome.completed →
    r.bufFreed = true ∧ r.fdClosed = true ∧ r.mapReleased = true

/-- A concrete caller-supplied path used in counterexamples and witnesses:
byte i is i + 65, so the first bytes are "ABCD..." with no NUL. -/
def pathABC : Nat → Nat := fun i => i + 65

/-- A concrete environment where setup succeeds and the backing file is
large enough that the read at offset 1 does not fault: the non-crashing
path. -/
def envOk : Env :=
  { openFd := some 3, fileSize := 128, mapAddr := 4096, fileByte := fun _ => 7 }

/-- A concrete environment where open fails (e.g. the parent directory of
the path does not exist). -/
def envFail : Env :=
  { openFd := none, fileSize := 0, mapAddr := 4096, fileByte := fun _ => 0 }

/-- A concrete environment for the intended use: the file is freshly
created with size 0, so the read at offset 1 raises SIGBUS. -/
def envFresh : Env :=
  { openFd := some 3, fileSize := 0, mapAddr := 4096, fileByte := fun _ => 0 }

/-! ## Supporting lemmas -/

/-- The strncpy copy loop writes exactly n bytes. -/
theorem strncpyLoop_length (src : Nat → Nat) (n : Nat) :
    (strncpyLoop src n).length = n := by
  induction n generalizing src with
  | zero => rfl
  | succ m ih =>
    unfold strncpyLoop
    by_cases h : src 0 = 0
    · simp [h]
    · simp [h, ih]

/-- The path buffer is the n copied bytes followed by the one calloc'd
zero byte strncpy never touches. -/
theorem busPathBuf_eq (path : Nat → Nat) (n : Nat) :
    busPathBuf path n = strncpyLoop path n ++ [0] := by
  unfold busPathBuf strncpy calloc
  rw [List.drop_replicate]
  simp

/-- Reading the copied-and-terminated buffer as a C string yields the
longest NUL-free prefix of the first n source bytes. -/
theorem cString_strncpyLoop (src : Nat → Nat) (n : Nat) :
    cString (strncpyLoop src n ++ [0]) =
      (firstBytes src n).takeWhile (fun b => b != 0) := by
  induction n generalizing src with
  | zero => rfl
  | succ m ih =>
    unfold strncpyLoop firstBytes
    by_cases h : src 0 = 0
    · simp [h, cString, List.replicate_succ, List.takeWhile_cons]
    · simp [h, cString, List.takeWhile_cons] at ih ⊢
      exact ih _

/-- Before the first NUL of the source, the copy loop reproduces the
source bytes. -/
theorem strncpyLoop_get (src : Nat → Nat) (n i : Nat) (hi : i < n)
    (hz : ∀ j, j ≤ i → src j ≠ 0) :
    (strncpyLoop src n)[i]? = some (src i) := by
  induction n generalizing src i with
  | zero => omega
  | succ m ih =>
    unfold strncpyLoop
    rw [if_neg (hz 0 (Nat.zero_le i))]
    cases i with
    | zero => exact List.getElem?_cons_zero
    | succ i' =>
      rw [List.getElem?_cons_succ]
      exact ih (fun k => src (k + 1)) i' (by omega) (fun j hj => hz (j + 1) (by omega))

/-! ## Claim C1 -/

/-- Claim C1, counterexample: at path "ABC..." of length 19 (the spec's own
AlignmentFault scenario) the trace of sig_bus contains no truncate/extend
operation at all, so the claimed open-truncate-mmap-access pattern does not
occur: sadness.c line 54 opens and line 55 maps, with no ftruncate between
them. -/
theorem sig_bus_claim_truncate_false :
    ¬ opensTruncates128MapsAccesses (sig_bus envFresh pathABC 19).events := by
  rintro ⟨i, j, k, l, _, _, _, _, hj, _, _⟩
  exact absurd (List.getElem?_mem hj) (by decide)

/-- Claim C1, amended: for every environment, path and path length, sig_bus
first creates or opens the file at the given path (read/write, O_CREAT,
mode 0666, trace position 2), then maps 128 bytes of it into memory for
shared read/write access (position 3), and only then performs the faulting
access (position 4); no truncate or extend of the file ever occurs, so the
128 bytes is only the mapping length and a newly created file keeps
size 0. -/
theorem sig_bus_open_map_access_order (env : Env) (path : Nat → Nat) (n : Nat) :
    (sig_bus env path n).events[2]? =
      some (BusEvent.openEv (cString (busPathBuf path n)) true true 438) ∧
    (sig_bus env path n).events[3]? =
      some (BusEvent.mmapEv (busMap env path n) 128 true true true (busFd env path n) 0) ∧
    (sig_bus env path n).events[4]? =
      some (BusEvent.accessEv (busMap env path n + 1) 1 false) ∧
    ((sig_bus env path n).events.all fun e => !e.isTruncateEv) = true := by
  cases hb : busReadByte env (busMap env path n) 1 <;>
    simp [sig_bus, busPre, busTail, hb, BusEvent.isTruncateEv]

/-! ## Claim C2 -/

/-- Claim C2, counterexample: in an environment where open fails, sig_bus
neither reports a setup failure nor refrains from the bus-fault access:
the claimed behaviour (a distinct report, and the access never attempted)
is false for the concrete input envFail / "ABCD" / 4. -/
theorem sig_bus_setup_failure_unreported :
    ¬ reportsSetupFailureWithoutAccess (sig_bus envFail pathABC 4) := by
  unfold reportsSetupFailureWithoutAccess
  decide

/-- Claim C2, amended: if open fails, sig_bus reports nothing: it passes
the invalid descriptor -1 straight to mmap, mmap yields MAP_FAILED (-1),
and the access is attempted anyway at address MAP_FAILED + 1 = 0, so the
process crashes with SIGSEGV instead of surfacing a setup failure. -/
theorem sig_bus_open_failure_behavior (env : Env) (path : Nat → Nat) (n : Nat)
    (h : env.openFd = none) :
    BusEvent.reportSetupFailureEv ∉ (sig_bus env path n).events ∧
    BusEvent.accessEv 0 1 false ∈ (sig_bus env path n).events ∧
    (sig_bus env path n).outcome = Outcome.crashed Signal.SIGSEGV := by
  have hfd : busFd env path n = -1 := by simp [busFd, openSys, h]
  have hm : busMap env path n = -1 := by norm_num [busMap, hfd, mmapSys]
  have hb : busReadByte env (-1 : Int) 1 = Except.error Signal.SIGSEGV := by
    simp [busReadByte]
  simp [sig_bus, busPre, busTail, hm, hb]

/-- Claim C2 amended, witness at the concrete failing environment. -/
theorem sig_bus_open_failure_behavior_witness :
    BusEvent.reportSetupFailureEv ∉ (sig_bus envFail pathABC 4).events ∧
    BusEvent.accessEv 0 1 false ∈ (sig_bus envFail pathABC 4).events ∧
    (sig_bus envFail pathABC 4).outcome = Outcome.crashed Signal.SIGSEGV :=
  sig_bus_open_failure_behavior envFail pathABC 4 rfl

/-! ## Claim C3 -/

/-- Claim C3: definitely_not_zero returns zero on every call of any call
sequence, regardless of prior calls (it is a stateless constant-zero
function), and sig_fpe is exactly the division of 1 by its result followed
by printing the quotient. -/
theorem definitely_not_zero_always_zero :
    (∀ calls : List Unit, ((callResults calls).all fun r => r == 0) = true) ∧
    definitely_not_zero = 0 ∧
    sig_fpe = Except.map (fun v => [v]) (trapDiv 1 definitely_not_zero) := by
  refine ⟨?_, rfl, rfl⟩
  intro calls
  simp [callResults, definitely_not_zero]

/-! ## Claim C4 -/

/-- Claim C4: the owned path buffer of sig_bus has size exactly
path_len + 1, its byte at index path_len is the NUL terminator, and the
caller's path bytes are copied into it (at every index below path_len not
preceded by a NUL in the source, the buffer holds the source byte). -/
theorem sig_bus_buffer_size_and_nul (path : Nat → Nat) (n : Nat) :
    (busPathBuf path n).length = n + 1 ∧
    (busPathBuf path n)[n]? = some 0 ∧
    (∀ i, i < n → (∀ j, j ≤ i → path j ≠ 0) →
      (busPathBuf path n)[i]? = some (path i)) := by
  refine ⟨?_, ?_, ?_⟩
  · simp [busPathBuf_eq, strncpyLoop_length]
  · rw [busPathBuf_eq, List.getElem?_append_right (by simp [strncpyLoop_length])]
    simp [strncpyLoop_length]
  · intro i hi hz
    rw [busPathBuf_eq,
      List.getElem?_append_left (by simp [strncpyLoop_length]; omega)]
    exact strncpyLoop_get path n i hi hz

/-- Claim C4, witness at the concrete NUL-free path "ABCD" of length 4. -/
theorem sig_bus_buffer_size_and_nul_witness :
    (busPathBuf pathABC 4).length = 5 ∧
    (busPathBuf pathABC 4)[4]? = some 0 ∧
    (busPathBuf pathABC 4)[2]? = some (pathABC 2) :=
  ⟨(sig_bus_buffer_size_and_nul pathABC 4).1,
   (sig_bus_buffer_size_and_nul pathABC 4).2.1,
   (sig_bus_buffer_size_and_nul pathABC 4).2.2 2 (by decide)
     (fun j hj => by simp [pathABC])⟩

/-! ## Claim C5 -/

/-- Claim C5: the divisor obtained from definitely_not_zero is zero, so
the division 1 / definitely_not_zero() in sig_fpe always takes the
division-by-zero branch: sig_fpe ends in SIGFPE and never produces an
output list, so no value is ever printed. -/
theorem sig_fpe_always_faults : sig_fpe = Except.error Signal.SIGFPE := rfl

/-! ## Claim C6 -/

/-- Claim C6: sig_segv reads a fixed-size unsigned integer through
address 0 (NULL); whenever address 0 is unmapped (which is what NULL
means) the read faults with SIGSEGV, and were the read to succeed its
value would be printed, so the read is not dead code. -/
theorem sig_segv_null_read_faults (mem : Nat → Option Nat) :
    (mem 0 = none → sig_segv mem = Except.error Signal.SIGSEGV) ∧
    (∀ v, mem 0 = some v → sig_segv mem = Except.ok [v]) := by
  constructor
  · intro h
    simp [sig_segv, derefU32, h]
  · intro v h
    simp [sig_segv, derefU32, h]

/-- Claim C6, witness: memory with nothing mapped at address 0. -/
theorem sig_segv_null_read_faults_witness :
    sig_segv (fun _ => none) = Except.error Signal.SIGSEGV :=
  (sig_segv_null_read_faults (fun _ => none)).1 rfl

/-! ## Claim C7 -/

/-- Claim C7, counterexample: with a backing file large enough that the
read at offset 1 does not fault, sig_bus runs to completion but releases
only the path buffer: the descriptor is never closed and the mapping is
never unmapped (sadness.c lines 59-60 contain only free(fpath)), so the
claim that all three resource kinds are released on the non-crashing path
is false. -/
theorem sig_bus_cleanup_incomplete :
    ¬ releasesAllResources (sig_bus envOk pathABC 4) := by
  unfold releasesAllResources
  decide

/-- Claim C7, amended: on the non-crashing path sig_bus frees the
heap-allocated path buffer (the free is reachable there), but the opened
descriptor is not closed and the mapping is not released; those are left
to the operating system at process exit. -/
theorem sig_bus_noncrash_frees_buffer_only (env : Env) (path : Nat → Nat) (n : Nat)
    (h : (sig_bus env path n).outcome = Outcome.completed) :
    (sig_bus env path n).bufFreed = true ∧
    (sig_bus env path n).fdClosed = false ∧
    (sig_bus env path n).mapReleased = false ∧
    BusEvent.freeEv ∈ (sig_bus env path n).events := by
  cases hb : busReadByte env (busMap env path n) 1 with
  | error s => simp [sig_bus, hb] at h
  | ok v => simp [sig_bus, busPre, busTail, hb]

/-- Claim C7 amended, witness at a concrete completing environment. -/
theorem sig_bus_noncrash_frees_buffer_only_witness :
    (sig_bus envOk pathABC 4).bufFreed = true ∧
    (sig_bus envOk pathABC 4).fdClosed = false ∧
    (sig_bus envOk pathABC 4).mapReleased = false ∧
    BusEvent.freeEv ∈ (sig_bus envOk pathABC 4).events :=
  sig_bus_noncrash_frees_buffer_only envOk pathABC 4 (by decide)

/-! ## Claim C8 -/

/-- Claim C8, counterexample: aarch64 is an architecture for which the
source knows no guaranteed-invalid and no trap sequence (its own comment
says "TODO: x86/_64 only"), yet building sig_ill and sig_trap for it does
not produce an unsupported-platform error: the same x86 instructions ud2
and int3 are specified unconditionally. -/
theorem sig_ill_trap_no_dispatch_cex :
    archKnownInvalid Arch.aarch64 = false ∧
    sig_ill Arch.aarch64 ≠ AsmResult.unsupportedPlatform ∧
    sig_ill Arch.aarch64 = AsmResult.emit Insn.ud2 ∧
    archKnownTrap Arch.aarch64 = false ∧
    sig_trap Arch.aarch64 ≠ AsmResult.unsupportedPlatform ∧
    sig_trap Arch.aarch64 = AsmResult.emit Insn.int3 := by
  decide

/-- Claim C8, amended: sig_ill and sig_trap have no per-architecture
dispatch at all: for every target architecture they specify the x86
instructions ud2 and int3 respectively, and never an unsupported-platform
error. -/
theorem sig_ill_trap_unconditional_x86 (a : Arch) :
    sig_ill a = AsmResult.emit Insn.ud2 ∧ sig_trap a = AsmResult.emit Insn.int3 :=
  ⟨rfl, rfl⟩

/-! ## Claim C9 -/

/-- Claim C9: the file-name string sig_bus passes to open (trace
position 2) is the longest NUL-free span at the start of the first
path_len bytes of the caller's path, and for path_len = 0 the opened path
is the empty string. -/
theorem sig_bus_opened_path_nul_free (env : Env) (path : Nat → Nat) (n : Nat) :
    (sig_bus env path n).events[2]? =
      some (BusEvent.openEv ((firstBytes path n).takeWhile (fun b => b != 0))
        true true 438) ∧
    cString (busPathBuf path n) = (firstBytes path n).takeWhile (fun b => b != 0) ∧
    cString (busPathBuf path 0) = [] := by
  have key : cString (busPathBuf path n) =
      (firstBytes path n).takeWhile (fun b => b != 0) := by
    rw [busPathBuf_eq]
    exact cString_strncpyLoop path n
  refine ⟨?_, key, by rw [busPathBuf_eq]; rfl⟩
  cases hb : busReadByte env (busMap env path n) 1 <;>
    simp [sig_bus, busPre, busTail, hb, key]

/-! ## Claim C10 -/

/-- Claim C10: the mapping sig_bus creates always has length 128 at file
offset 0, whatever the path length, and the faulting access is a one-byte
read (not a write) at offset 1 of that mapping, well inside the 128
mapped bytes. -/
theorem sig_bus_map_len_and_access (env : Env) (path : Nat → Nat) (n : Nat) :
    (sig_bus env path n).events[3]? =
      some (BusEvent.mmapEv (busMap env path n) 128 true true true
        (busFd env path n) 0) ∧
    (sig_bus env path n).events[4]? =
      some (BusEvent.accessEv (busMap env path n + 1) 1 false) ∧
    1 + 1 ≤ 128 := by
  cases hb : busReadByte env (busMap env path n) 1 <;>
    simp [sig_bus, busPre, busTail, hb]
